import Mathlib

/-!
Shallow embedding, in Lean 4, of the Vortran Stradus laser driver
(`src/stradus.py`, `src/vortran_laser/stradus.py`,
`src/vortran_laser/device_codes.py`) together with theorems checking the
natural-language specification against it.

Conventions used throughout:
* Python exceptions are modelled with `Except PyErr`.
* Byte strings are `List Nat` (each entry a byte value); text strings are
  Lean `String`.
* The serial port is modelled as an explicit state (`SerialPort`) holding a
  script of future `read_until` results (each paired with the wall-clock time
  the surrounding `perf_counter` measurement observes for that read) and a log
  of the I/O operations performed, so that ordering and counting claims can be
  stated.  Wall-clock durations are integers (only their ordering relative to
  the configured timeout ever matters to the code).
-/

deriving instance DecidableEq for Except

/-- The Python exception kinds the driver code can raise or catch:
`SerialTimeoutException`, `ValueError` (from `int(...)` or an `IntEnum` call),
`UnicodeEncodeError` (from `str.encode('ascii')`) and `UnicodeDecodeError`
(from `bytes.decode('utf-8')`). -/
inductive PyErr where
  | serialTimeout
  | valueError
  | unicodeEncodeError
  | unicodeDecodeError
deriving DecidableEq, Repr

/-- Whitespace characters stripped by Python's `int(str)` conversion. -/
def pyWhitespace : List Char :=
  [' ', '\t', '\n', '\r', Char.ofNat 11, Char.ofNat 12]

def pyIsDigit (c : Char) : Bool := '0' ≤ c && c ≤ '9'

def digitsToNat (l : List Char) : Nat :=
  l.foldl (fun a c => a * 10 + (c.toNat - 48)) 0

/-- Python `str.lstrip(chars)`: drop the maximal leading run of characters
that belong to the character set `chars` (NOT a prefix match). -/
def pyLstrip (chars : List Char) (s : List Char) : List Char :=
  s.dropWhile (fun c => chars.contains c)

/-- String-level wrapper for `pyLstrip`. -/
def pyLstripStr (chars s : String) : String :=
  String.mk (pyLstrip chars.toList s.toList)

/-- Python `str.strip(chars)` (both ends), used by `int(...)` for whitespace. -/
def pyStripChars (chars : List Char) (s : List Char) : List Char :=
  (((s.dropWhile (fun c => chars.contains c)).reverse.dropWhile
      (fun c => chars.contains c))).reverse

/-- Python `int(s)` in base 10: strip surrounding whitespace, allow one
optional sign, then decimal digits; anything else raises `ValueError`.
(Underscore digit separators, which no reply ever contains, are not
modelled.) -/
def pyInt (s : String) : Except PyErr Int :=
  match pyStripChars pyWhitespace s.toList with
  | [] => Except.error PyErr.valueError
  | '-' :: ds =>
    if ds ≠ [] ∧ ds.all pyIsDigit then Except.ok (-(digitsToNat ds : Int))
    else Except.error PyErr.valueError
  | '+' :: ds =>
    if ds ≠ [] ∧ ds.all pyIsDigit then Except.ok (digitsToNat ds : Int)
    else Except.error PyErr.valueError
  | ds =>
    if ds.all pyIsDigit then Except.ok (digitsToNat ds : Int)
    else Except.error PyErr.valueError

/-- `FaultCodeField` (`IntEnum`), in source definition order.  A fault-code
reply is a 16-bit number whose bits mark active faults; many bits can be
asserted at once. -/
inductive FaultCodeField where
  | LASER_EMISSION_ACTIVE
  | STANDBY
  | WARMUP
  | VALUE_OUT_OF_RANGE
  | INVALID_COMMAND
  | INTERLOCK_OPEN
  | TEC_OFF
  | DIODE_OVER_CURRENT
  | DIODE_TEMPERATURE_FAULT
  | BASE_PLATE_TEMPERATURE_FAULT
  | POWER_LOCK_LOST
  | EEPROM_ERROR
  | I2C_ERROR
  | FAN
  | POWER_SUPPLY
  | TEMPERATURE
  | DIODE_END_OF_LIFE_INDICATOR
deriving DecidableEq, Repr

/-- The numeric value carried by each `FaultCodeField` member. -/
def FaultCodeField.value : FaultCodeField → Nat
  | .LASER_EMISSION_ACTIVE => 0
  | .STANDBY => 1
  | .WARMUP => 2
  | .VALUE_OUT_OF_RANGE => 4
  | .INVALID_COMMAND => 8
  | .INTERLOCK_OPEN => 16
  | .TEC_OFF => 32
  | .DIODE_OVER_CURRENT => 64
  | .DIODE_TEMPERATURE_FAULT => 128
  | .BASE_PLATE_TEMPERATURE_FAULT => 256
  | .POWER_LOCK_LOST => 512
  | .EEPROM_ERROR => 1024
  | .I2C_ERROR => 2048
  | .FAN => 4096
  | .POWER_SUPPLY => 8192
  | .TEMPERATURE => 16384
  | .DIODE_END_OF_LIFE_INDICATOR => 32768

/-- `iter(FaultCodeField)`: the members in definition order. -/
def allFaultCodeFields : List FaultCodeField :=
  [.LASER_EMISSION_ACTIVE, .STANDBY, .WARMUP, .VALUE_OUT_OF_RANGE,
   .INVALID_COMMAND, .INTERLOCK_OPEN, .TEC_OFF, .DIODE_OVER_CURRENT,
   .DIODE_TEMPERATURE_FAULT, .BASE_PLATE_TEMPERATURE_FAULT, .POWER_LOCK_LOST,
   .EEPROM_ERROR, .I2C_ERROR, .FAN, .POWER_SUPPLY, .TEMPERATURE,
   .DIODE_END_OF_LIFE_INDICATOR]

/-- `bin(n)[-1] == '1'` for a Python `int` `n`: the last character of the
binary representation is `'1'` exactly when `n` is odd (Python renders
negative numbers as `-0b...` of the absolute value, so the test is oddness
for negative `n` as well, which coincides with `n % 2 = 1` under Lean's
`Int.emod`). -/
def pyBinLastIsOne (n : Int) : Bool := n % 2 == 1

/-- The body of the fault-decoding `for` loop shared by
`StradusLaser.get_faults` (`src/vortran_laser/stradus.py`) and the
`StradusLaser.faults` property (`src/stradus.py`).  In the source the
`return faults` statement sits INSIDE the loop body, so the loop returns
during its first iteration; if the field list is empty the loop is never
entered and the Python function falls through, returning `None` (modelled as
`none`).  The right-shift of `fault_code` performed before the `return` is
dead and therefore not carried anywhere. -/
def faultsLoop (fault_code : Int) (faults : List FaultCodeField) :
    List FaultCodeField → Option (List FaultCodeField)
  | [] => none
  | field :: _ =>
    some (if pyBinLastIsOne fault_code then faults ++ [field] else faults)

/-- `StradusLaser.get_faults` (`src/vortran_laser/stradus.py`), from the
decoded fault-code reply string onward: `int(...)` wrapped in
`try/except ValueError: return None`, then the loop over ALL
`FaultCodeField` members (this revision does not skip
`LASER_EMISSION_ACTIVE`). -/
def StradusLaser.get_faultsOfReply (reply : String) :
    Except PyErr (Option (List FaultCodeField)) :=
  match pyInt reply with
  | Except.error PyErr.valueError => Except.ok none
  | Except.error e => Except.error e
  | Except.ok fc => Except.ok (faultsLoop fc [] allFaultCodeFields)

/-- The `StradusLaser.faults` property (`src/stradus.py`), from the decoded
fault-code reply string onward.  This revision first consumes
`LASER_EMISSION_ACTIVE` from the iterator (`next(fault_code_fields)`)
before entering the loop. -/
def StradusLaser.faultsOfReply (reply : String) :
    Except PyErr (Option (List FaultCodeField)) :=
  match pyInt reply with
  | Except.error PyErr.valueError => Except.ok none
  | Except.error e => Except.error e
  | Except.ok fc => Except.ok (faultsLoop fc [] (allFaultCodeFields.drop 1))

/-- `StradusState` / `LaserState` (`IntEnum`): the coarse laser state. -/
inductive StradusState where
  | LASER_EMISSION_ACTIVE
  | STANDBY
  | WARMUP
  | FAULT
deriving DecidableEq, Repr

def StradusState.value : StradusState → Int
  | .LASER_EMISSION_ACTIVE => 0
  | .STANDBY => 1
  | .WARMUP => 2
  | .FAULT => 3

/-- Calling the `IntEnum` on a number, `StradusState(fault_code)`: returns
the member with that value, raising `ValueError` otherwise. -/
def StradusState.ofInt (n : Int) : Except PyErr StradusState :=
  if n = 0 then Except.ok StradusState.LASER_EMISSION_ACTIVE
  else if n = 1 then Except.ok StradusState.STANDBY
  else if n = 2 then Except.ok StradusState.WARMUP
  else if n = 3 then Except.ok StradusState.FAULT
  else Except.error PyErr.valueError

/-- The classification step of `StradusLaser.state` (`src/stradus.py`) and
`StradusLaser.get_state` (`src/vortran_laser/stradus.py`), after the reply
has been parsed to `fault_code`:
`if fault_code > StradusState.FAULT.value: return FAULT` else
`StradusState(fault_code)`. -/
def pyClassify (fault_code : Int) : Except PyErr StradusState :=
  if fault_code > StradusState.value StradusState.FAULT then
    Except.ok StradusState.FAULT
  else StradusState.ofInt fault_code

/-- `StradusLaser.state` / `get_state` from the decoded reply string onward:
`int(...)` (a `ValueError` here propagates, uncaught) followed by the
classification. -/
def StradusLaser.stateOfReply (reply : String) : Except PyErr StradusState :=
  match pyInt reply with
  | Except.error e => Except.error e
  | Except.ok fc => pyClassify fc

/-- `BoolVal` (`StrEnum`): the two-valued wire representation. -/
inductive BoolVal where
  | OFF
  | ON
deriving DecidableEq, Repr

/-- The wire string carried by each `BoolVal` member. -/
def BoolVal.value : BoolVal → String
  | .OFF => "0"
  | .ON => "1"

/-- The explicit `__bool__` defined on `BoolVal` in
`src/vortran_laser/device_codes.py` and in `src/stradus.py`:
`self.value == "1"`. -/
def BoolVal.toBool (b : BoolVal) : Bool := b.value == "1"

/-- `bool()` on the `BoolVal` of `src/vortran_laser/stradus.py`, which
defines NO `__bool__`: Python falls back to the truthiness of the underlying
`str`, which is `True` exactly for a non-empty string. -/
def BoolVal.truthy (b : BoolVal) : Bool := b.value != ""

/-- `Cmd` (`StrEnum`), tokens as in `src/stradus.py` and
`src/vortran_laser/device_codes.py` (the older `src/vortran_laser/stradus.py`
revision spells `PulseMode` as `"PM"`; no claim depends on that token). -/
inductive Cmd where
  | Echo
  | Prompt
  | LaserDriverControlMode
  | ClearFaultCode
  | RecallFaultCode
  | FiveSecEmissionDelay
  | ExternalPowerControl
  | LaserEmission
  | LaserPower
  | LaserCurrent
  | PulsePower
  | PulseMode
  | ThermalElectricCooler
deriving DecidableEq, Repr

def Cmd.token : Cmd → String
  | .Echo => "ECHO"
  | .Prompt => "PROMPT"
  | .LaserDriverControlMode => "C"
  | .ClearFaultCode => "CFC"
  | .RecallFaultCode => "RFC"
  | .FiveSecEmissionDelay => "DELAY"
  | .ExternalPowerControl => "EPC"
  | .LaserEmission => "LE"
  | .LaserPower => "LP"
  | .LaserCurrent => "LC"
  | .PulsePower => "PP"
  | .PulseMode => "PUL"
  | .ThermalElectricCooler => "TEC"

/-- `Query` (`StrEnum`), tokens as in `src/stradus.py`. -/
inductive Query where
  | BasePlateTemperature
  | SystemFirmwareVersion
  | SystemFirmwareProtocolVersion
  | LaserDriverControlMode
  | ComputerControl
  | FiveSecEmissionDelay
  | EchoStatus
  | ExternalPowerControl
  | FaultCode
  | FaultDescription
  | FirmwareProtocol
  | FirmwareVersion
  | Help
  | InterlockStatus
  | LaserCurrent
  | LaserCurrentSetting
  | LaserEmission
  | LaserOperatingHours
  | LaserIdentification
  | LaserPower
  | LaserPowerSetting
  | LaserWavelength
  | MaximumLaserPower
  | OpticalBlockTemperature
  | OpticalBlockTemperatureSetting
  | PulsePower
  | RatedPower
  | PulseMode
  | ThermalElectricCoolerStatus
deriving DecidableEq, Repr

def Query.token : Query → String
  | .BasePlateTemperature => "?BPT"
  | .SystemFirmwareVersion => "?SFV"
  | .SystemFirmwareProtocolVersion => "?SPV"
  | .LaserDriverControlMode => "?C"
  | .ComputerControl => "?CC"
  | .FiveSecEmissionDelay => "?DELAY"
  | .EchoStatus => "?ECHO"
  | .ExternalPowerControl => "?EPC"
  | .FaultCode => "?FC"
  | .FaultDescription => "?FD"
  | .FirmwareProtocol => "?FP"
  | .FirmwareVersion => "?FV"
  | .Help => "?H"
  | .InterlockStatus => "?IL"
  | .LaserCurrent => "?LC"
  | .LaserCurrentSetting => "?LCS"
  | .LaserEmission => "?LE"
  | .LaserOperatingHours => "?LH"
  | .LaserIdentification => "?LI"
  | .LaserPower => "?LP"
  | .LaserPowerSetting => "?LPS"
  | .LaserWavelength => "?LW"
  | .MaximumLaserPower => "?MAXP"
  | .OpticalBlockTemperature => "?OBT"
  | .OpticalBlockTemperatureSetting => "?OBTS"
  | .PulsePower => "?PP"
  | .RatedPower => "?RP"
  | .PulseMode => "?PUL"
  | .ThermalElectricCoolerStatus => "?TEC"

/-- `str.encode('ascii')`: the code points, provided every character is
below 128; otherwise Python raises `UnicodeEncodeError`. -/
def asciiEncode (s : String) : Except PyErr (List Nat) :=
  if s.toList.all (fun c => c.toNat < 128) then
    Except.ok (s.toList.map Char.toNat)
  else Except.error PyErr.unicodeEncodeError

/-- `bytes.rstrip(b'\x5cr\x5cn')`: drop every trailing byte belonging to the
set {13, 10}. -/
def pyRstripBytes (bs : List Nat) : List Nat :=
  (bs.reverse.dropWhile (fun b => b == 13 || b == 10)).reverse

/-- One step of a strict UTF-8 decoder (as `bytes.decode('utf-8')`):
continuation-byte ranges, overlong forms, surrogates and values above
U+10FFFF are rejected, matching CPython. -/
def utf8DecodeAux : List Nat → Option (List Char)
  | [] => some []
  | b :: bs =>
    if b < 0x80 then
      (utf8DecodeAux bs).map (fun cs => Char.ofNat b :: cs)
    else if b < 0xC2 then none
    else if b ≤ 0xDF then
      match bs with
      | c1 :: bs1 =>
        if 0x80 ≤ c1 ∧ c1 ≤ 0xBF then
          (utf8DecodeAux bs1).map
            (fun cs => Char.ofNat ((b - 0xC0) * 0x40 + (c1 - 0x80)) :: cs)
        else none
      | [] => none
    else if b ≤ 0xEF then
      match bs with
      | c1 :: c2 :: bs1 =>
        if (if b = 0xE0 then 0xA0 else 0x80) ≤ c1 ∧
            c1 ≤ (if b = 0xED then 0x9F else 0xBF) ∧
            0x80 ≤ c2 ∧ c2 ≤ 0xBF then
          (utf8DecodeAux bs1).map
            (fun cs => Char.ofNat
              ((b - 0xE0) * 0x1000 + (c1 - 0x80) * 0x40 + (c2 - 0x80)) :: cs)
        else none
      | _ => none
    else if b ≤ 0xF4 then
      match bs with
      | c1 :: c2 :: c3 :: bs1 =>
        if (if b = 0xF0 then 0x90 else 0x80) ≤ c1 ∧
            c1 ≤ (if b = 0xF4 then 0x8F else 0xBF) ∧
            0x80 ≤ c2 ∧ c2 ≤ 0xBF ∧ 0x80 ≤ c3 ∧ c3 ≤ 0xBF then
          (utf8DecodeAux bs1).map
            (fun cs => Char.ofNat
              ((b - 0xF0) * 0x40000 + (c1 - 0x80) * 0x1000 +
               (c2 - 0x80) * 0x40 + (c3 - 0x80)) :: cs)
        else none
      | _ => none
    else none

/-- `bytes.decode('utf-8')` as an `Option`-valued function. -/
def utf8Decode (bs : List Nat) : Option String :=
  (utf8DecodeAux bs).map (fun cs => String.mk cs)

/-- One entry of the I/O log of the modelled serial port. -/
inductive PortEvent where
  | resetInputBuffer
  | write (bs : List Nat)
  | readUntil (term : List Nat) (result : List Nat)
deriving DecidableEq, Repr

/-- The modelled `pyserial` port.  `pending` scripts the results of the
successive `read_until` calls together with the wall-clock duration the
caller's surrounding `perf_counter()` measurement observes for each call;
once the script is exhausted the device is silent, so a read returns no
bytes after more than the configured timeout.  `events` logs every
operation performed on the port. -/
structure SerialPort where
  timeout : Int
  pending : List (List Nat × Int)
  events : List PortEvent
deriving DecidableEq, Repr

/-- `Serial.write(bs)`. -/
def SerialPort.write (p : SerialPort) (bs : List Nat) : SerialPort :=
  { p with events := p.events ++ [PortEvent.write bs] }

/-- `Serial.read_until(term)` together with the elapsed wall time the caller
measures around the call. -/
def SerialPort.readUntil (p : SerialPort) (term : List Nat) :
    (List Nat × Int) × SerialPort :=
  match p.pending with
  | [] =>
    (([], p.timeout + 1),
     { p with events := p.events ++ [PortEvent.readUntil term []] })
  | r :: rest =>
    (r, { p with pending := rest,
                 events := p.events ++ [PortEvent.readUntil term r.1] })

/-- `Serial.reset_input_buffer()`. -/
def SerialPort.resetInputBuffer (p : SerialPort) : SerialPort :=
  { p with events := p.events ++ [PortEvent.resetInputBuffer] }

/-- `StradusLaser.REPLY_TERMINATION = b'\x5cr\x5cn'`. -/
def replyTermination : List Nat := [13, 10]

/-- `StradusLaser._send` (`src/stradus.py`): frame the message with a
trailing `'\x5cr'`, encode to ASCII, write it, then perform two
`read_until` reads; after each read, if no bytes came back, the caller asked
for strict timeout enforcement and the measured elapsed time exceeds the
configured timeout, raise `SerialTimeoutException`.  On success, return the
second frame right-stripped of `'\x5cr'`/`'\x5cn'` bytes and decoded as
UTF-8. -/
def StradusLaser._send (p : SerialPort) (msg : String) (raise_timeout : Bool) :
    Except PyErr String × SerialPort :=
  match asciiEncode (msg ++ "\r") with
  | Except.error e => (Except.error e, p)
  | Except.ok bs =>
    match (p.write bs).readUntil replyTermination with
    | ((reply1, t1), p1) =>
      if reply1.length = 0 ∧ raise_timeout = true ∧ t1 > p1.timeout then
        (Except.error PyErr.serialTimeout, p1)
      else
        match p1.readUntil replyTermination with
        | ((reply2, t2), p2) =>
          if reply2.length = 0 ∧ raise_timeout = true ∧ t2 > p2.timeout then
            (Except.error PyErr.serialTimeout, p2)
          else
            match utf8Decode (pyRstripBytes reply2) with
            | none => (Except.error PyErr.unicodeDecodeError, p2)
            | some s => (Except.ok s, p2)

/-- The reply-decoding step of `StradusLaser.get` (`src/stradus.py`):
`reply.lstrip(f"?{setting}= ")` — a character-set strip whose set is the
characters of the token plus `'?'`, `'='` and `' '`. -/
def StradusLaser.getDecode (setting : Query) (reply : String) : String :=
  pyLstripStr ("?" ++ setting.token ++ "= ") reply

/-- The reply-decoding step of `StradusLaser.get` in
`src/vortran_laser/stradus.py`: identical except the strip set lacks the
trailing space (`reply.lstrip(f"?{setting}=")`). -/
def StradusLaser.getDecode_v (setting : Query) (reply : String) : String :=
  pyLstripStr ("?" ++ setting.token ++ "=") reply

/-- `StradusLaser.get` (`src/stradus.py`): run the exchange for the query
token, then strip the echoed prefix characters from the reply. -/
def StradusLaser.get (p : SerialPort) (setting : Query) :
    Except PyErr String × SerialPort :=
  match StradusLaser._send p setting.token true with
  | (Except.ok reply, p1) => (Except.ok (StradusLaser.getDecode setting reply), p1)
  | (Except.error e, p1) => (Except.error e, p1)

/-- `StradusLaser.get` of `src/vortran_laser/stradus.py`. -/
def StradusLaser.get_v (p : SerialPort) (setting : Query) :
    Except PyErr String × SerialPort :=
  match StradusLaser._send p setting.token true with
  | (Except.ok reply, p1) => (Except.ok (StradusLaser.getDecode_v setting reply), p1)
  | (Except.error e, p1) => (Except.error e, p1)

/-- `StradusLaser.set`: send `f"{cmd}={value}"` and return the raw reply. -/
def StradusLaser.set (p : SerialPort) (cmd : Cmd) (value : String) :
    Except PyErr String × SerialPort :=
  StradusLaser._send p (cmd.token ++ "=" ++ value) true

/-- `StradusLaser._disable_echo`: `self.set(Cmd.Echo, BoolVal.OFF)`. -/
def StradusLaser._disable_echo (p : SerialPort) :
    Except PyErr String × SerialPort :=
  StradusLaser.set p Cmd.Echo (BoolVal.value BoolVal.OFF)

/-- `StradusLaser._disable_prompt`: `self.set(Cmd.Prompt, BoolVal.OFF)`. -/
def StradusLaser._disable_prompt (p : SerialPort) :
    Except PyErr String × SerialPort :=
  StradusLaser.set p Cmd.Prompt (BoolVal.value BoolVal.OFF)

/-- `StradusLaser.__init__` after the port has been opened:
`reset_input_buffer`, then `_disable_echo`, then `_disable_prompt`; a
`SerialTimeoutException` from either setup call is printed and re-raised, so
every error propagates out of the constructor. -/
def StradusLaser.init (p0 : SerialPort) : Except PyErr SerialPort :=
  let r1 := StradusLaser._disable_echo p0.resetInputBuffer
  match r1.1 with
  | Except.error e => Except.error e
  | Except.ok _ =>
    let r2 := StradusLaser._disable_prompt r1.2
    match r2.1 with
    | Except.error e => Except.error e
    | Except.ok _ => Except.ok r2.2

/-- `StradusLaser.state` (`src/stradus.py`) as a full exchange:
`int(self.get(Query.FaultCode))` then the classification. -/
def StradusLaser.state (p : SerialPort) :
    Except PyErr StradusState × SerialPort :=
  match StradusLaser.get p Query.FaultCode with
  | (Except.error e, p1) => (Except.error e, p1)
  | (Except.ok reply, p1) => (StradusLaser.stateOfReply reply, p1)

/-- The `StradusLaser.faults` property (`src/stradus.py`) as a full
exchange. -/
def StradusLaser.faults (p : SerialPort) :
    Except PyErr (Option (List FaultCodeField)) × SerialPort :=
  match StradusLaser.get p Query.FaultCode with
  | (Except.error e, p1) => (Except.error e, p1)
  | (Except.ok reply, p1) => (StradusLaser.faultsOfReply reply, p1)

/-- `StradusLaser.get_faults` (`src/vortran_laser/stradus.py`) as a full
exchange (that revision's `get` strips without the trailing space). -/
def StradusLaser.get_faults (p : SerialPort) :
    Except PyErr (Option (List FaultCodeField)) × SerialPort :=
  match StradusLaser.get_v p Query.FaultCode with
  | (Except.error e, p1) => (Except.error e, p1)
  | (Except.ok reply, p1) => (StradusLaser.get_faultsOfReply reply, p1)

/-- The driver facade state relevant to the cached `wavelength` property:
the port plus the `functools.cache` memo attached to the property getter
(absent until the first successful read). -/
structure Driver where
  port : SerialPort
  wavelengthCache : Option Int
deriving DecidableEq, Repr

/-- The `wavelength` property (`src/stradus.py`), `@property @cache`:
on a memo hit return the cached integer without touching the device;
otherwise run `int(self.get(Query.LaserWavelength))` and, if no exception
escapes, store the result in the memo. -/
def StradusLaser.wavelength (d : Driver) : Except PyErr (Int × Driver) :=
  match d.wavelengthCache with
  | some w => Except.ok (w, d)
  | none =>
    match StradusLaser.get d.port Query.LaserWavelength with
    | (Except.error e, _) => Except.error e
    | (Except.ok reply, p1) =>
      match pyInt reply with
      | Except.error e => Except.error e
      | Except.ok w =>
        Except.ok (w, { port := p1, wavelengthCache := some w })

/-- The number of set bits of `n` among bit positions 1..15 (bit 0
excluded) — the size the specification requires of the decoded fault
collection. -/
def setBitsAmong1to15 (n : Nat) : Nat :=
  ((List.range 16).filter (fun i => decide (1 ≤ i) && n.testBit i)).length

/-- The specification's classification table, stated in its own words:
0 maps to `EmissionActive`, 1 to `Standby`, 2 to `Warmup`, anything at or
above 3 to `Fault`. -/
def classifySpec (n : Nat) : StradusState :=
  if n = 0 then StradusState.LASER_EMISSION_ACTIVE
  else if n = 1 then StradusState.STANDBY
  else if n = 2 then StradusState.WARMUP
  else StradusState.FAULT

/-- A scripted device that replies `"\x0d\x0a?FC=20\x0d\x0a"` to the
fault-code query: the first `read_until` drains the leading delimiter, the
second returns the payload frame `"?FC=20\x0d\x0a"`. -/
def fc20Port : SerialPort :=
  { timeout := 5,
    pending := [([13, 10], 0), ([63, 70, 67, 61, 50, 48, 13, 10], 0)],
    events := [] }

/-- Claim C1: the fault decoders return after examining only the first bit
position — the `return` sits inside the loop — so at fault code 20 (bits 2
and 4 set) both revisions return the empty list even though two bits among
positions 1..15 are set, and at 65535 they return a single field instead of
fifteen.  The claimed size equality fails; the code, not the claim, is at
fault (the spec and the source's own comments call for all 16 bits). -/
theorem c1_fault_decode_stops_after_first_bit :
    faultsLoop 20 [] (allFaultCodeFields.drop 1) = some [] ∧
    faultsLoop 20 [] allFaultCodeFields = some [] ∧
    setBitsAmong1to15 20 = 2 ∧
    faultsLoop 65535 [] (allFaultCodeFields.drop 1) =
      some [FaultCodeField.STANDBY] ∧
    faultsLoop 65535 [] allFaultCodeFields =
      some [FaultCodeField.LASER_EMISSION_ACTIVE] ∧
    setBitsAmong1to15 65535 = 15 := by decide

/-- Claim C2: against a device replying `"\x0d\x0a?FC=20\x0d\x0a"` to the
fault-code query, both fault decoders return the empty list — not the
claimed pair at bit positions 2 and 4 — while the state classification of
the same reply is indeed `FAULT`. -/
theorem c2_fc20_scenario :
    (StradusLaser.faults fc20Port).1 = Except.ok (some []) ∧
    (StradusLaser.get_faults fc20Port).1 = Except.ok (some []) ∧
    (StradusLaser.faults fc20Port).1 ≠
      Except.ok (some [FaultCodeField.WARMUP, FaultCodeField.INVALID_COMMAND]) ∧
    (StradusLaser.state fc20Port).1 = Except.ok StradusState.FAULT ∧
    pyClassify 20 = Except.ok StradusState.FAULT := by decide

/-- Claim C3: for every fault code in [0, 65535] the classification step
returns exactly the state the specification's table gives, and returns
`FAULT` exactly when the code is at least 3. -/
theorem c3_classify_matches_spec (n : Nat) (h : n ≤ 65535) :
    pyClassify (n : Int) = Except.ok (classifySpec n) ∧
    (pyClassify (n : Int) = Except.ok StradusState.FAULT ↔ 3 ≤ n) := by
  by_cases h3 : n < 3
  · interval_cases n
    · exact ⟨by decide, by decide⟩
    · exact ⟨by decide, by decide⟩
    · exact ⟨by decide, by decide⟩
  · by_cases h4 : n = 3
    · subst h4
      exact ⟨by decide, by decide⟩
    · have hgt : (n : Int) > StradusState.value StradusState.FAULT := by
        simp only [StradusState.value]
        omega
      have h0 : n ≠ 0 := by omega
      have h1 : n ≠ 1 := by omega
      have h2 : n ≠ 2 := by omega
      refine ⟨?_, ?_⟩
      · simp [pyClassify, hgt, classifySpec, h0, h1, h2]
      · simp [pyClassify, hgt]
        omega

/-- Witness for C3 at the concrete fault code 20. -/
theorem c3_classify_matches_spec_witness :
    pyClassify ((20 : Nat) : Int) = Except.ok (classifySpec 20) ∧
    (pyClassify ((20 : Nat) : Int) = Except.ok StradusState.FAULT ↔ 3 ≤ 20) :=
  c3_classify_matches_spec 20 (by decide)

/-- Dropping from an appended list whose first part satisfies the predicate
everywhere skips the whole first part. -/
theorem dropWhile_append_of_forall_pos {α : Type} (p : α → Bool)
    (l1 l2 : List α) (h : ∀ a ∈ l1, p a = true) :
    (l1 ++ l2).dropWhile p = l2.dropWhile p := by
  induction l1 with
  | nil => rfl
  | cons a l ih =>
    rw [List.cons_append, List.dropWhile_cons, h a (by simp)]
    exact ih (fun b hb => h b (by simp [hb]))

/-- Every character of `f"{token}="` belongs to the character set
`f"?{token}= "` that `StradusLaser.get` (`src/stradus.py`) strips. -/
theorem mem_getStripSet (q : Query) (c : Char)
    (hc : c ∈ q.token.toList ++ ['=']) :
    ((("?" ++ q.token ++ "= ").toList).contains c) = true := by
  have hmem : c ∈ ("?" ++ q.token ++ "= ").toList := by
    simp only [String.toList, String.data_append]
    simp only [String.toList, List.mem_append, List.mem_singleton] at hc
    rcases hc with h | h
    · exact List.mem_append_left _ (List.mem_append_right _ h)
    · subst h
      exact List.mem_append_right _ (by decide)
  simpa [List.contains, List.elem_iff] using hmem

/-- Every character of `f"{token}="` belongs to the character set
`f"?{token}="` that `StradusLaser.get` (`src/vortran_laser/stradus.py`)
strips. -/
theorem mem_getStripSet_v (q : Query) (c : Char)
    (hc : c ∈ q.token.toList ++ ['=']) :
    ((("?" ++ q.token ++ "=").toList).contains c) = true := by
  have hmem : c ∈ ("?" ++ q.token ++ "=").toList := by
    simp only [String.toList, String.data_append]
    simp only [String.toList, List.mem_append, List.mem_singleton] at hc
    rcases hc with h | h
    · exact List.mem_append_left _ (List.mem_append_right _ h)
    · subst h
      exact List.mem_append_right _ (by decide)
  simpa [List.contains, List.elem_iff] using hmem

/-- Claim C4 as stated is false: `lstrip` strips a character SET, not a
prefix, so a value whose leading characters lie in the set loses them.  With
token `"?LW"` and value `"W5"`, both revisions decode `"?LW=W5"` to `"5"`,
not `"W5"`. -/
theorem c4_getDecode_counterexample :
    StradusLaser.getDecode Query.LaserWavelength
      (Query.LaserWavelength.token ++ "=" ++ "W5") = "5" ∧
    StradusLaser.getDecode_v Query.LaserWavelength
      (Query.LaserWavelength.token ++ "=" ++ "W5") = "5" ∧
    ("5" : String) ≠ "W5" := by decide

/-- Claim C4, amended: the decode step strips the maximal leading run of
characters drawn from the set `{'?'} ∪ token ∪ {'='}` (plus `' '` in the
`src/stradus.py` revision); consequently decoding `"{token}={value}"`
returns exactly `value` whenever `value` itself is unchanged by that strip
(in particular whenever its first character is outside the set), and a
prefix-free payload is likewise returned unchanged exactly under the same
condition. -/
theorem c4_getDecode_amended (q : Query) (v : String)
    (h1 : StradusLaser.getDecode q v = v)
    (h2 : StradusLaser.getDecode_v q v = v) :
    StradusLaser.getDecode q (q.token ++ "=" ++ v) = v ∧
    StradusLaser.getDecode_v q (q.token ++ "=" ++ v) = v := by
  constructor
  · unfold StradusLaser.getDecode pyLstripStr pyLstrip at *
    have hsplit : (q.token ++ "=" ++ v).toList =
        (q.token.toList ++ ['=']) ++ v.toList := by
      simp [String.toList, String.data_append]
    rw [hsplit, dropWhile_append_of_forall_pos _ _ _
      (fun c hc => mem_getStripSet q c hc)]
    exact h1
  · unfold StradusLaser.getDecode_v pyLstripStr pyLstrip at *
    have hsplit : (q.token ++ "=" ++ v).toList =
        (q.token.toList ++ ['=']) ++ v.toList := by
      simp [String.toList, String.data_append]
    rw [hsplit, dropWhile_append_of_forall_pos _ _ _
      (fun c hc => mem_getStripSet_v q c hc)]
    exact h2

/-- Witness for the amended C4: token `"?LW"`, value `"405"`. -/
theorem c4_getDecode_amended_witness :
    StradusLaser.getDecode Query.LaserWavelength
      (Query.LaserWavelength.token ++ "=" ++ "405") = "405" ∧
    StradusLaser.getDecode_v Query.LaserWavelength
      (Query.LaserWavelength.token ++ "=" ++ "405") = "405" :=
  c4_getDecode_amended Query.LaserWavelength "405" (by decide) (by decide)

/-- Claim C8 as stated is false for the fault decoders: on the unparsable
reply `"abc"` both `faults` and `get_faults` catch the `ValueError` and
return Python `None` — a sentinel success value, not a surfaced failure. -/
theorem c8_faults_sentinel_counterexample :
    StradusLaser.faultsOfReply "abc" = Except.ok none ∧
    StradusLaser.get_faultsOfReply "abc" = Except.ok none := by decide

/-- Claim C8, amended: for every fault-code reply that does not parse as an
integer, the state classification surfaces the `ValueError` to the caller,
but the fault-decoding operations swallow it and return the `None`
sentinel. -/
theorem c8_parse_failure_amended (reply : String)
    (h : pyInt reply = Except.error PyErr.valueError) :
    StradusLaser.stateOfReply reply = Except.error PyErr.valueError ∧
    StradusLaser.faultsOfReply reply = Except.ok none ∧
    StradusLaser.get_faultsOfReply reply = Except.ok none := by
  unfold StradusLaser.stateOfReply StradusLaser.faultsOfReply
    StradusLaser.get_faultsOfReply
  rw [h]
  exact ⟨rfl, rfl, rfl⟩

/-- Witness for the amended C8 at the unparsable reply `"FAULT"`. -/
theorem c8_parse_failure_amended_witness :
    StradusLaser.stateOfReply "FAULT" = Except.error PyErr.valueError ∧
    StradusLaser.faultsOfReply "FAULT" = Except.ok none ∧
    StradusLaser.get_faultsOfReply "FAULT" = Except.ok none :=
  c8_parse_failure_amended "FAULT" (by decide)

/-- Claim C9 as stated is false: the `BoolVal` revision in
`src/vortran_laser/stradus.py` defines no `__bool__`, so Python string
truthiness applies and `OFF` (the non-empty string `"0"`) converts to
`True`, unlike the explicit conversion of the other two revisions. -/
theorem c9_off_truthy_counterexample :
    BoolVal.truthy BoolVal.OFF = true ∧
    BoolVal.toBool BoolVal.OFF = false := by decide

/-- Claim C9, amended: in the revisions that define `__bool__`
(`src/vortran_laser/device_codes.py` and `src/stradus.py`) the explicit
conversion yields `true` exactly for `ON`; the
`src/vortran_laser/stradus.py` revision inherits string truthiness, under
which both members convert to `true`. -/
theorem c9_bool_conversion_amended :
    (∀ b, BoolVal.toBool b = (b == BoolVal.ON)) ∧
    (∀ b, BoolVal.truthy b = true) :=
  ⟨fun b => by cases b <;> rfl, fun b => by cases b <;> rfl⟩

/-- ASCII-encoding a message with the `'\x0d'` terminator appended yields the
message's bytes followed by the single byte 13. -/
theorem asciiEncode_append_cr (msg : String) (mb : List Nat)
    (h : asciiEncode msg = Except.ok mb) :
    asciiEncode (msg ++ "\r") = Except.ok (mb ++ [13]) := by
  unfold asciiEncode at h ⊢
  have hsplit : (msg ++ "\r").toList = msg.toList ++ ['\r'] := by
    simp [String.toList, String.data_append]
  split at h
  · rename_i hall
    rw [hsplit]
    have hcond : ((msg.toList ++ ['\r']).all fun c => decide (c.toNat < 128)) = true := by
      rw [List.all_append, hall, Bool.true_and]
      decide
    rw [if_pos hcond]
    simp only [List.map_append] at *
    simp only [Except.ok.injEq] at h
    rw [← h]
    rfl
  · exact absurd h (by simp)

/-- Specification of a successful `_send` against a script providing both
read results: the event log grows by exactly one write (the encoded message)
and two `read_until` reads, the first two scripted results are consumed, the
timeout is untouched, and the returned string is the UTF-8 decoding of the
right-stripped second frame. -/
theorem send_ok_of_pending (p : SerialPort) (msg : String) (mb r1 r2 : List Nat)
    (t1 t2 : Int) (rest : List (List Nat × Int)) (s : String) (p' : SerialPort)
    (hmsg : asciiEncode (msg ++ "\r") = Except.ok mb)
    (hpend : p.pending = (r1, t1) :: (r2, t2) :: rest)
    (hrun : StradusLaser._send p msg true = (Except.ok s, p')) :
    p'.events = p.events ++ [PortEvent.write mb,
      PortEvent.readUntil replyTermination r1,
      PortEvent.readUntil replyTermination r2] ∧
    p'.pending = rest ∧ p'.timeout = p.timeout ∧
    utf8Decode (pyRstripBytes r2) = some s := by
  unfold StradusLaser._send at hrun
  rw [hmsg] at hrun
  simp only [SerialPort.write, SerialPort.readUntil, hpend] at hrun
  split at hrun
  · simp at hrun
  · split at hrun
    · simp at hrun
    · split at hrun
      · simp at hrun
      · rename_i s' hdec
        rw [Prod.mk.injEq] at hrun
        obtain ⟨hs, hp⟩ := hrun
        simp only [Except.ok.injEq] at hs
        rw [← hp, ← hs]
        refine ⟨by simp, by simp, by simp, hdec⟩

/-- If the first read returns no bytes after more than the configured
timeout, a strict `_send` raises `SerialTimeoutException`. -/
theorem send_timeout_phase1 (p : SerialPort) (msg : String) (mb : List Nat)
    (t1 : Int) (rest : List (List Nat × Int))
    (hmsg : asciiEncode (msg ++ "\r") = Except.ok mb)
    (hpend : p.pending = ([], t1) :: rest)
    (ht : t1 > p.timeout) :
    (StradusLaser._send p msg true).1 = Except.error PyErr.serialTimeout := by
  unfold StradusLaser._send
  rw [hmsg]
  simp only [SerialPort.write, SerialPort.readUntil, hpend]
  rw [if_pos ⟨by simp, by trivial, ht⟩]

/-- If the first read passes the timeout check but the second returns no
bytes after more than the configured timeout, a strict `_send` raises
`SerialTimeoutException`. -/
theorem send_timeout_phase2 (p : SerialPort) (msg : String) (mb r1 : List Nat)
    (t1 t2 : Int) (rest : List (List Nat × Int))
    (hmsg : asciiEncode (msg ++ "\r") = Except.ok mb)
    (hpend : p.pending = (r1, t1) :: ([], t2) :: rest)
    (h1 : ¬(r1 = [] ∧ t1 > p.timeout))
    (ht : t2 > p.timeout) :
    (StradusLaser._send p msg true).1 = Except.error PyErr.serialTimeout := by
  unfold StradusLaser._send
  rw [hmsg]
  simp only [SerialPort.write, SerialPort.readUntil, hpend]
  rw [if_neg (by
    intro hcon
    exact h1 ⟨List.length_eq_zero.mp hcon.1, hcon.2.2⟩)]
  rw [if_pos ⟨by simp, by trivial, ht⟩]

/-- If on both reads the code's empty-and-overdue test fails, a strict
`_send` does not raise `SerialTimeoutException` (it completes, or fails
only on UTF-8 decoding). -/
theorem send_no_timeout (p : SerialPort) (msg : String) (mb r1 r2 : List Nat)
    (t1 t2 : Int) (rest : List (List Nat × Int))
    (hmsg : asciiEncode (msg ++ "\r") = Except.ok mb)
    (hpend : p.pending = (r1, t1) :: (r2, t2) :: rest)
    (h1 : ¬(r1 = [] ∧ t1 > p.timeout))
    (h2 : ¬(r2 = [] ∧ t2 > p.timeout)) :
    (StradusLaser._send p msg true).1 ≠ Except.error PyErr.serialTimeout := by
  unfold StradusLaser._send
  rw [hmsg]
  simp only [SerialPort.write, SerialPort.readUntil, hpend]
  rw [if_neg (by
    intro hcon
    exact h1 ⟨List.length_eq_zero.mp hcon.1, hcon.2.2⟩)]
  rw [if_neg (by
    intro hcon
    exact h2 ⟨List.length_eq_zero.mp hcon.1, hcon.2.2⟩)]
  split
  · simp
  · simp

/-- The first component of `StradusLaser.get` is the first component of the
underlying `_send`, with the decode step mapped over a success. -/
theorem get_fst_eq (p : SerialPort) (q : Query) :
    (StradusLaser.get p q).1 =
      (StradusLaser._send p q.token true).1.map (StradusLaser.getDecode q) := by
  unfold StradusLaser.get
  rcases StradusLaser._send p q.token true with ⟨res, pp⟩
  cases res <;> rfl

/-- A successful `StradusLaser.get` comes from a successful `_send` on the
same port, whose reply it decodes. -/
theorem get_ok_elim (p : SerialPort) (q : Query) (r : String) (p1 : SerialPort)
    (h : StradusLaser.get p q = (Except.ok r, p1)) :
    ∃ reply, StradusLaser._send p q.token true = (Except.ok reply, p1) ∧
      r = StradusLaser.getDecode q reply := by
  unfold StradusLaser.get at h
  rcases hs : StradusLaser._send p q.token true with ⟨res, pp⟩
  rw [hs] at h
  cases res with
  | error e => simp at h
  | ok reply =>
    rw [Prod.mk.injEq] at h
    obtain ⟨hr, hp⟩ := h
    simp only [Except.ok.injEq] at hr
    exact ⟨reply, by rw [hp], hr.symm⟩

/-- Claim C5: under strict timeout enforcement, a `get` or `set` exchange
fails with `SerialTimeoutException` whenever either read phase returns no
bytes after more than the configured timeout, and otherwise the exchange
never raises the timeout error. -/
theorem c5_strict_timeout_enforcement (p : SerialPort) (q : Query) (c : Cmd)
    (v : String) (mbq mbc : List Nat)
    (hq : asciiEncode (q.token ++ "\r") = Except.ok mbq)
    (hc : asciiEncode ((c.token ++ "=" ++ v) ++ "\r") = Except.ok mbc) :
    (∀ t1 rest, p.pending = ([], t1) :: rest → t1 > p.timeout →
      (StradusLaser.get p q).1 = Except.error PyErr.serialTimeout ∧
      (StradusLaser.set p c v).1 = Except.error PyErr.serialTimeout) ∧
    (∀ r1 t1 t2 rest, p.pending = (r1, t1) :: ([], t2) :: rest →
      ¬(r1 = [] ∧ t1 > p.timeout) → t2 > p.timeout →
      (StradusLaser.get p q).1 = Except.error PyErr.serialTimeout ∧
      (StradusLaser.set p c v).1 = Except.error PyErr.serialTimeout) ∧
    (∀ r1 t1 r2 t2 rest, p.pending = (r1, t1) :: (r2, t2) :: rest →
      ¬(r1 = [] ∧ t1 > p.timeout) → ¬(r2 = [] ∧ t2 > p.timeout) →
      (StradusLaser.get p q).1 ≠ Except.error PyErr.serialTimeout ∧
      (StradusLaser.set p c v).1 ≠ Except.error PyErr.serialTimeout) := by
  refine ⟨?_, ?_, ?_⟩
  · intro t1 rest hpend ht
    constructor
    · rw [get_fst_eq, send_timeout_phase1 p q.token mbq t1 rest hq hpend ht]
      rfl
    · unfold StradusLaser.set
      exact send_timeout_phase1 p (c.token ++ "=" ++ v) mbc t1 rest hc hpend ht
  · intro r1 t1 t2 rest hpend h1 ht
    constructor
    · rw [get_fst_eq,
        send_timeout_phase2 p q.token mbq r1 t1 t2 rest hq hpend h1 ht]
      rfl
    · unfold StradusLaser.set
      exact send_timeout_phase2 p (c.token ++ "=" ++ v) mbc r1 t1 t2 rest hc
        hpend h1 ht
  · intro r1 t1 r2 t2 rest hpend h1 h2
    constructor
    · rw [get_fst_eq]
      intro hcon
      cases hs : (StradusLaser._send p q.token true).1 with
      | error e =>
        rw [hs] at hcon
        have he : e = PyErr.serialTimeout := by
          simpa [Except.map] using hcon
        exact send_no_timeout p q.token mbq r1 r2 t1 t2 rest hq hpend h1 h2
          (he ▸ hs)
      | ok r =>
        rw [hs] at hcon
        simp [Except.map] at hcon
    · unfold StradusLaser.set
      exact send_no_timeout p (c.token ++ "=" ++ v) mbc r1 r2 t1 t2 rest hc
        hpend h1 h2

/-- A device that stays silent: one scripted empty read observed after 10
time units against a 5-unit timeout. -/
def wportC5 : SerialPort := { timeout := 5, pending := [([], 10)], events := [] }

/-- Witness for C5: on the silent device both the fault-code query and the
echo-off command fail with the timeout error. -/
theorem c5_strict_timeout_enforcement_witness :
    (StradusLaser.get wportC5 Query.FaultCode).1 =
      Except.error PyErr.serialTimeout ∧
    (StradusLaser.set wportC5 Cmd.Echo "0").1 =
      Except.error PyErr.serialTimeout :=
  (c5_strict_timeout_enforcement wportC5 Query.FaultCode Cmd.Echo "0"
    [63, 70, 67, 13] [69, 67, 72, 79, 61, 48, 13]
    (by decide) (by decide)).1 10 [] rfl (by decide)

/-- Claim C6: an exchange writes exactly the ASCII payload followed by the
single byte `'\x0d'`, performs exactly two `read_until` reads on the
`'\x0d''\x0a'` terminator, and the successful result is the second frame
right-trimmed of terminator bytes and decoded as UTF-8. -/
theorem c6_wire_framing (p : SerialPort) (msg : String) (mb r1 r2 : List Nat)
    (t1 t2 : Int) (rest : List (List Nat × Int)) (s : String) (p' : SerialPort)
    (hmsg : asciiEncode msg = Except.ok mb)
    (hpend : p.pending = (r1, t1) :: (r2, t2) :: rest)
    (hev : p.events = [])
    (hrun : StradusLaser._send p msg true = (Except.ok s, p')) :
    p'.events = [PortEvent.write (mb ++ [13]),
      PortEvent.readUntil replyTermination r1,
      PortEvent.readUntil replyTermination r2] ∧
    p'.pending = rest ∧
    utf8Decode (pyRstripBytes r2) = some s := by
  obtain ⟨he, hp, -, hd⟩ := send_ok_of_pending p msg (mb ++ [13]) r1 r2 t1 t2
    rest s p' (asciiEncode_append_cr msg mb hmsg) hpend hrun
  rw [hev] at he
  exact ⟨by simpa using he, hp, hd⟩

/-- A device scripted to answer a wavelength query with
`"\x0d\x0a?LW=405\x0d\x0a"`. -/
def wportC6 : SerialPort :=
  { timeout := 5,
    pending := [([13, 10], 0), ([63, 76, 87, 61, 52, 48, 53, 13, 10], 0)],
    events := [] }

/-- The port state `wportC6` reaches after the `"?LW"` exchange. -/
def wportC6After : SerialPort :=
  { timeout := 5, pending := [],
    events := [PortEvent.write [63, 76, 87, 13],
      PortEvent.readUntil replyTermination [13, 10],
      PortEvent.readUntil replyTermination [63, 76, 87, 61, 52, 48, 53, 13, 10]] }

/-- Witness for C6 on the concrete `"?LW"` exchange. -/
theorem c6_wire_framing_witness :
    wportC6After.events = [PortEvent.write ([63, 76, 87] ++ [13]),
      PortEvent.readUntil replyTermination [13, 10],
      PortEvent.readUntil replyTermination
        [63, 76, 87, 61, 52, 48, 53, 13, 10]] ∧
    wportC6After.pending = [] ∧
    utf8Decode (pyRstripBytes [63, 76, 87, 61, 52, 48, 53, 13, 10]) =
      some "?LW=405" :=
  c6_wire_framing wportC6 "?LW" [63, 76, 87] [13, 10]
    [63, 76, 87, 61, 52, 48, 53, 13, 10] 0 0 [] "?LW=405" wportC6After
    (by decide) rfl rfl (by decide)

/-- Claim C7: construction first discards buffered input, then performs
exactly two setup exchanges — echo off (`"ECHO=0"`) then reply-prompt off
(`"PROMPT=0"`) — and nothing else; an error raised by either setup exchange
propagates out of the constructor, so no half-initialized driver is ever
returned. -/
theorem c7_init_setup_sequence (p : SerialPort) (b1 b2 b3 b4 : List Nat)
    (t1 t2 t3 t4 : Int) (rest : List (List Nat × Int))
    (hev : p.events = [])
    (hpend : p.pending =
      (b1, t1) :: (b2, t2) :: (b3, t3) :: (b4, t4) :: rest) :
    (∀ p', StradusLaser.init p = Except.ok p' →
      p'.events = [PortEvent.resetInputBuffer,
        PortEvent.write [69, 67, 72, 79, 61, 48, 13],
        PortEvent.readUntil replyTermination b1,
        PortEvent.readUntil replyTermination b2,
        PortEvent.write [80, 82, 79, 77, 80, 84, 61, 48, 13],
        PortEvent.readUntil replyTermination b3,
        PortEvent.readUntil replyTermination b4]) ∧
    (∀ e, (StradusLaser._disable_echo p.resetInputBuffer).1 = Except.error e →
      StradusLaser.init p = Except.error e) ∧
    (∀ r p1 e,
      StradusLaser._disable_echo p.resetInputBuffer = (Except.ok r, p1) →
      (StradusLaser._disable_prompt p1).1 = Except.error e →
      StradusLaser.init p = Except.error e) := by
  refine ⟨?_, ?_, ?_⟩
  · intro p' h
    unfold StradusLaser.init at h
    rcases hE : StradusLaser._disable_echo p.resetInputBuffer with ⟨res1, p1⟩
    simp only [hE] at h
    cases res1 with
    | error e => simp at h
    | ok r1 =>
      rcases hP : StradusLaser._disable_prompt p1 with ⟨res2, p2⟩
      simp only [hP] at h
      cases res2 with
      | error e => simp at h
      | ok r2 =>
        simp only [Except.ok.injEq] at h
        unfold StradusLaser._disable_echo StradusLaser.set at hE
        unfold StradusLaser._disable_prompt StradusLaser.set at hP
        have hprev : p.resetInputBuffer.pending =
            (b1, t1) :: (b2, t2) :: ((b3, t3) :: (b4, t4) :: rest) := by
          simp [SerialPort.resetInputBuffer, hpend]
        obtain ⟨he1, hp1, -, -⟩ := send_ok_of_pending p.resetInputBuffer _
          [69, 67, 72, 79, 61, 48, 13] b1 b2 t1 t2 _ r1 p1 (by decide)
          hprev hE
        obtain ⟨he2, hp2, -, -⟩ := send_ok_of_pending p1 _
          [80, 82, 79, 77, 80, 84, 61, 48, 13] b3 b4 t3 t4 rest r2 p2
          (by decide) hp1 hP
        rw [← h, he2, he1]
        simp [SerialPort.resetInputBuffer, hev]
  · intro e hE'
    unfold StradusLaser.init
    rcases hE : StradusLaser._disable_echo p.resetInputBuffer with ⟨res1, p1⟩
    rw [hE] at hE'
    simp only at hE'
    subst hE'
    simp [hE]
  · intro r p1 e hE hP'
    unfold StradusLaser.init
    rcases hP : StradusLaser._disable_prompt p1 with ⟨res2, p2⟩
    rw [hP] at hP'
    simp only at hP'
    subst hP'
    simp [hE, hP]

/-- A responsive device for driver construction: four scripted reads, one
frame pair for each setup command. -/
def wportC7 : SerialPort :=
  { timeout := 5,
    pending := [([13, 10], 0), ([13, 10], 0), ([13, 10], 0), ([13, 10], 0)],
    events := [] }

/-- The port state `wportC7` reaches after successful construction. -/
def wportC7After : SerialPort :=
  { timeout := 5, pending := [],
    events := [PortEvent.resetInputBuffer,
      PortEvent.write [69, 67, 72, 79, 61, 48, 13],
      PortEvent.readUntil replyTermination [13, 10],
      PortEvent.readUntil replyTermination [13, 10],
      PortEvent.write [80, 82, 79, 77, 80, 84, 61, 48, 13],
      PortEvent.readUntil replyTermination [13, 10],
      PortEvent.readUntil replyTermination [13, 10]] }

/-- Witness for C7: constructing against the responsive device performs
exactly the reset, the echo-off exchange and the prompt-off exchange, in
that order. -/
theorem c7_init_setup_sequence_witness :
    (StradusLaser.init wportC7).map SerialPort.events =
      Except.ok [PortEvent.resetInputBuffer,
        PortEvent.write [69, 67, 72, 79, 61, 48, 13],
        PortEvent.readUntil replyTermination [13, 10],
        PortEvent.readUntil replyTermination [13, 10],
        PortEvent.write [80, 82, 79, 77, 80, 84, 61, 48, 13],
        PortEvent.readUntil replyTermination [13, 10],
        PortEvent.readUntil replyTermination [13, 10]] := by
  have hrun : StradusLaser.init wportC7 = Except.ok wportC7After := by decide
  have h := (c7_init_setup_sequence wportC7 [13, 10] [13, 10] [13, 10] [13, 10]
    0 0 0 0 [] rfl rfl).1 wportC7After hrun
  rw [hrun]
  exact congrArg Except.ok h

/-- Claim C10: the cached `wavelength` property performs at most one device
exchange per driver instance — a successful read stores the integer in the
memo, every later read returns exactly that integer with the driver state
(port included) unchanged, a memo hit never touches the device, and a
memo-less successful read performs exactly the one `"?LW"` exchange. -/
theorem c10_wavelength_cached :
    (∀ d w d', StradusLaser.wavelength d = Except.ok (w, d') →
      d'.wavelengthCache = some w ∧
      StradusLaser.wavelength d' = Except.ok (w, d')) ∧
    (∀ d w, d.wavelengthCache = some w →
      StradusLaser.wavelength d = Except.ok (w, d)) ∧
    (∀ d r1 t1 r2 t2 rest w d', d.wavelengthCache = none →
      d.port.pending = (r1, t1) :: (r2, t2) :: rest →
      StradusLaser.wavelength d = Except.ok (w, d') →
      d'.port.events = d.port.events ++
        [PortEvent.write [63, 76, 87, 13],
         PortEvent.readUntil replyTermination r1,
         PortEvent.readUntil replyTermination r2] ∧
      d'.port.pending = rest) := by
  refine ⟨?_, ?_, ?_⟩
  · intro d w d' h
    unfold StradusLaser.wavelength at h ⊢
    cases hc : d.wavelengthCache with
    | some w0 =>
      rw [hc] at h
      simp only [Except.ok.injEq, Prod.mk.injEq] at h
      obtain ⟨hw, hd⟩ := h
      subst hw
      subst hd
      exact ⟨hc, by simp [hc]⟩
    | none =>
      rw [hc] at h
      rcases hg : StradusLaser.get d.port Query.LaserWavelength with ⟨res, pp⟩
      simp only [hg] at h
      cases res with
      | error e => simp at h
      | ok reply =>
        cases hi : pyInt reply with
        | error e =>
          simp only [hi] at h
          simp at h
        | ok w0 =>
          simp only [hi] at h
          simp only [Except.ok.injEq, Prod.mk.injEq] at h
          obtain ⟨hw, hd⟩ := h
          subst hw
          rw [← hd]
          exact ⟨rfl, rfl⟩
  · intro d w h
    unfold StradusLaser.wavelength
    rw [h]
  · intro d r1 t1 r2 t2 rest w d' hc hpend h
    unfold StradusLaser.wavelength at h
    rw [hc] at h
    rcases hg : StradusLaser.get d.port Query.LaserWavelength with ⟨res, pp⟩
    simp only [hg] at h
    cases res with
    | error e => simp at h
    | ok reply =>
      cases hi : pyInt reply with
      | error e =>
        simp only [hi] at h
        simp at h
      | ok w0 =>
        simp only [hi] at h
        simp only [Except.ok.injEq, Prod.mk.injEq] at h
        obtain ⟨hw, hd⟩ := h
        obtain ⟨rr, hsend, hdecode⟩ := get_ok_elim d.port Query.LaserWavelength
          reply pp hg
        obtain ⟨he, hp, -, -⟩ := send_ok_of_pending d.port
          Query.LaserWavelength.token [63, 76, 87, 13] r1 r2 t1 t2 rest rr pp
          (by decide) hpend hsend
        rw [← hd]
        exact ⟨he, hp⟩

/-- A fresh driver whose device is scripted to answer the wavelength query
with `"\x0d\x0a?LW=405\x0d\x0a"`. -/
def wdriverC10 : Driver :=
  { port :=
      { timeout := 5,
        pending := [([13, 10], 0), ([63, 76, 87, 61, 52, 48, 53, 13, 10], 0)],
        events := [] },
    wavelengthCache := none }

/-- The driver state `wdriverC10` reaches after its first wavelength read. -/
def wdriverC10After : Driver :=
  { port :=
      { timeout := 5, pending := [],
        events := [PortEvent.write [63, 76, 87, 13],
          PortEvent.readUntil replyTermination [13, 10],
          PortEvent.readUntil replyTermination
            [63, 76, 87, 61, 52, 48, 53, 13, 10]] },
    wavelengthCache := some 405 }

/-- Witness for C10: after the first read returns 405, the memo holds 405
and a second read returns the same integer with the state unchanged. -/
theorem c10_wavelength_cached_witness :
    wdriverC10After.wavelengthCache = some 405 ∧
    StradusLaser.wavelength wdriverC10After =
      Except.ok (405, wdriverC10After) :=
  c10_wavelength_cached.1 wdriverC10 405 wdriverC10After (by decide)
